import Mathlib

/-!
Verification of the session/credential consistency coordinator of the
OdooSense_V2 front end.  The definitions below are a shallow embedding of

  * `agent_frontend/src/hooks/useCredentials.js` — the cache coordinator
    (`checkCredentials`, `saveCredentials`, `clearCredentials`,
    module-level globals `globalCredentialCheck`, `globalCredentialStatus`,
    `globalLastCheck`, `globalSessionId`);
  * `agent_frontend/src/utils/sessionRecovery.js` — the recovery prober
    (`findAvailableSession`, `recoverSession`);
  * the chat context (`updateSessionId`, the session registry).

Remote calls (`agentAPI.getOdooCredentials` and friends) are modelled by an
oracle giving the response of the k-th remote call of the execution; a
response of `.error` models a rejected promise (network failure).
`localStorage` is modelled as a key/value list.  Time (`Date.now()`) is an
explicit parameter.  Two views of the code are embedded: a sequential model
of one fetch cycle (including the recovery recursion), and an interleaving
automaton of the module-level globals for concurrent callers.
-/

/-- A value held in `localStorage`.  `credJson` is a parseable JSON object
carrying credential-summary fields (`none` = field absent); `str` is a plain
string; `malformed` is a value on which `JSON.parse` throws. -/
inductive StoreVal
  | credJson (url database username : Option String)
  | str (s : String)
  | malformed
deriving DecidableEq, Repr

/-- `localStorage` contents; an entry shadows later entries with the same key. -/
abbrev Store := List (String × StoreVal)

/-- `localStorage.getItem`. -/
def lsGet (st : Store) (k : String) : Option StoreVal :=
  match st.find? (fun p => p.1 == k) with
  | some p => some p.2
  | none => none

/-- `localStorage.setItem`. -/
def lsSet (st : Store) (k : String) (v : StoreVal) : Store :=
  (k, v) :: st.filter (fun p => p.1 != k)

/-- `localStorage.removeItem`. -/
def lsRemove (st : Store) (k : String) : Store :=
  st.filter (fun p => p.1 != k)

/-- Credentials as returned by the remote check endpoint
(`{url, database, username}` — the interface never returns the secret). -/
structure Creds where
  url : String
  database : String
  username : String
deriving DecidableEq, Repr

/-- Response of `agentAPI.getOdooCredentials`: `{success, credentials?}`. -/
structure CheckResp where
  success : Bool
  credentials : Option Creds
deriving DecidableEq, Repr

/-- Behaviour of the remote credential service: response to the k-th remote
check of the execution for a given session id; `.error` = rejected call. -/
abbrev Oracle := Nat → String → Except Unit CheckResp

/-- The cached global status (`globalCredentialStatus`). -/
structure CredStatus where
  isConfigured : Bool
  error : Option String
deriving DecidableEq, Repr

/-- Window events dispatched by the subsystem. -/
inductive Ev
  | sessionIdChanged (oldId newId : String)
  | credentialsUpdated
deriving DecidableEq, Repr

/-- Sequential state: `localStorage`, the chat context's session id, the
module-level globals of `useCredentials.js`, the dispatched events, plus
instrumentation: `probed` records the session id of every remote check made
(so `probed.length` is the number of round-trips), `retries` counts the
recursive re-checks performed after a successful recovery. -/
structure CState where
  store : Store
  sessionId : String
  globalCredentialCheck : Bool
  globalCredentialStatus : Option CredStatus
  globalLastCheck : Nat
  globalSessionId : Option String
  events : List Ev
  probed : List String
  retries : Nat
deriving DecidableEq, Repr

/-- One round-trip of `agentAPI.getOdooCredentials(sid)`. -/
def remoteCall (O : Oracle) (sid : String) (s : CState) :
    Except Unit CheckResp × CState :=
  (O s.probed.length sid, { s with probed := s.probed ++ [sid] })

/-- JavaScript truthiness of a credential field (absent or empty = falsy). -/
def truthy : Option String → Bool
  | none => false
  | some v => v != ""

/-- `JSON.parse` of a stored value, `none` when it throws or the result is
not a credential object. -/
def parseCredJson : StoreVal → Option (Option String × Option String × Option String)
  | .credJson u d n => some (u, d, n)
  | _ => none

/-- The literal candidate list of `sessionRecovery.js` (`commonSessions`,
"From the logs").  Note the computed `sessionHints` scan of `localStorage`
in the source is dead code: its result is only logged, never used. -/
def commonSessions : List String :=
  ["8428094f-8aeb-4bad-aa6d-6a838a3c9192",
   "fc208a99-36eb-4b0f-9e9a-b49cd882b943"]

/-- The `for (const testSession of commonSessions)` loop of
`findAvailableSession`: probe each candidate different from the current id,
stopping at the first whose check reports `success` with credentials; a
thrown check is caught and the loop continues. -/
def tryCandidates (O : Oracle) (current : String) :
    List String → CState → Option (String × Creds) × CState
  | [], s => (none, s)
  | t :: rest, s =>
    if t == current then tryCandidates O current rest s
    else
      match remoteCall O t s with
      | (.ok r, s') =>
        if r.success then
          match r.credentials with
          | some c => (some (t, c), s')
          | none => tryCandidates O current rest s'
        else tryCandidates O current rest s'
      | (.error _, s') => tryCandidates O current rest s'

/-- `findAvailableSession(currentSessionId)`: check the current session
first, then the hardcoded candidates; any uncaught throw yields
`{found: false}` via the enclosing catch. -/
def findAvailableSession (O : Oracle) (currentSessionId : String) (s : CState) :
    Option (String × Creds) × CState :=
  match remoteCall O currentSessionId s with
  | (.ok r, s') =>
    if r.success then
      match r.credentials with
      | some c => (some (currentSessionId, c), s')
      | none => tryCandidates O currentSessionId commonSessions s'
    else tryCandidates O currentSessionId commonSessions s'
  | (.error _, s') => (none, s')

/-- `updateSessionId` of the chat context: unconditionally persist the new
id, update the in-memory id, and dispatch `sessionIdChanged` with
`{oldSessionId, newSessionId}` (in the source the dispatch is deferred by
`setTimeout(..., 100)`; the event is recorded here at the call site). -/
def updateSessionId (newSessionId : String) (s : CState) : CState :=
  { s with
    store := lsSet s.store "odoo_session_id" (.str newSessionId)
    sessionId := newSessionId
    events := s.events ++ [.sessionIdChanged s.sessionId newSessionId] }

/-- `recoverSession(currentSessionId, updateSessionId)`: on finding
credentials under a different session id, rotate the session, store the
non-secret summary locally and dispatch `credentialsUpdated`. -/
def recoverSession (O : Oracle) (s : CState) : Bool × CState :=
  match findAvailableSession O s.sessionId s with
  | (some (sid, c), s') =>
    if sid != s.sessionId then
      let s₁ := updateSessionId sid s'
      let s₂ := { s₁ with store := (lsSet s₁.store "odoo_credentials"
                    (.credJson (some c.url) (some c.database) (some c.username))) }
      (true, { s₂ with events := s₂.events ++ [.credentialsUpdated] })
    else (false, s')
  | (none, s') => (false, s')

/-- The cache-freshness test of `checkCredentials` (lines 59-61):
`globalLastCheck && (now - globalLastCheck) < cacheExpiry &&
globalCredentialStatus !== null` with a five-minute expiry. -/
def cacheFresh (now lastCheck : Nat) (st : Option CredStatus) : Bool :=
  lastCheck != 0 && now - lastCheck < 5 * 60 * 1000 && st.isSome

/-- Result of a `checkCredentials` invocation: the promise resolved with a
boolean, the caller was handed the already in-flight promise, the promise
rejected, or the model ran out of fuel for the (unbounded) recovery
recursion. -/
inductive CCResult
  | value (b : Bool)
  | attached
  | thrown
  | fuelOut
deriving DecidableEq, Repr

/-- `true` iff the result models a rejected promise. -/
def isRejection : CCResult → Bool
  | .thrown => true
  | _ => false

/-- `true` iff a store read-back is a credential-summary object, the shape
`{url, database, username}` carrying no secret field. -/
def isSummaryShape : Option StoreVal → Bool
  | some (.credJson _ _ _) => true
  | _ => false

/-- The recovery branch of the fetch task (lines 186-225): run
`recoverSession`; on success clear the single-flight slot and the cache and
re-run the whole check with the cache skipped (`k` is that re-run, the call
through `checkCredentialsRef.current(true)`); on failure cache
`{isConfigured: false, error: null}`. -/
def recoveryAndRetry (O : Oracle) (k : CState → CCResult × CState) (now : Nat)
    (s : CState) : CCResult × CState :=
  match recoverSession O s with
  | (true, s₁) =>
    k { s₁ with globalCredentialCheck := false
                globalCredentialStatus := none
                globalLastCheck := 0
                retries := s₁.retries + 1 }
  | (false, s₁) =>
    (.value false, { s₁ with globalCredentialStatus := some ⟨false, none⟩
                             globalLastCheck := now })

/-- The part of the task body after the local summary was found absent or
was discarded (lines 154-226): check the backend directly; on success
persist the non-secret summary and cache `Configured`; on a miss attempt
recovery; a throw here reaches the task's outer catch (lines 227-246),
which caches `{isConfigured: false, error: 'Failed to check credentials'}`
and resolves `false`. -/
def afterLocal (O : Oracle) (k : CState → CCResult × CState) (now : Nat)
    (s : CState) : CCResult × CState :=
  match remoteCall O s.sessionId s with
  | (.error _, s') =>
    (.value false,
      { s' with
        globalCredentialStatus := some ⟨false, some "Failed to check credentials"⟩
        globalLastCheck := now })
  | (.ok r, s') =>
    if r.success then
      match r.credentials with
      | some c =>
        (.value true,
          { s' with
            store := (lsSet s'.store "odoo_credentials"
              (.credJson (some c.url) (some c.database) (some c.username)))
            globalCredentialStatus := some ⟨true, none⟩
            globalLastCheck := now })
      | none => recoveryAndRetry O k now s'
    else recoveryAndRetry O k now s'

/-- The fetch-task body (the async IIFE assigned to `globalCredentialCheck`,
lines 88-250).  With a structurally valid local summary the backend is
confirmed: a confirmed check caches `Configured`; a miss discards the
summary and caches the session-expired status; note that the inner
`catch (parseError)` also catches a rejection of this first remote call, so
a network failure here discards the summary and falls through to the direct
backend check.  A malformed or incomplete summary is discarded and the
direct check runs. -/
def taskBody (O : Oracle) (k : CState → CCResult × CState) (now : Nat)
    (s : CState) : CCResult × CState :=
  match lsGet s.store "odoo_credentials" with
  | some v =>
    match parseCredJson v with
    | some (u, d, n) =>
      if truthy u && truthy d && truthy n then
        match remoteCall O s.sessionId s with
        | (.ok r, s') =>
          if r.success && r.credentials.isSome then
            (.value true,
              { s' with globalCredentialStatus := some ⟨true, none⟩
                        globalLastCheck := now })
          else
            (.value false,
              { s' with
                store := lsRemove s'.store "odoo_credentials"
                globalCredentialStatus :=
                  some ⟨false, some "Session expired - please re-enter credentials"⟩
                globalLastCheck := now })
        | (.error _, s') =>
          afterLocal O k now { s' with store := lsRemove s'.store "odoo_credentials" }
      else
        afterLocal O k now { s with store := lsRemove s.store "odoo_credentials" }
    | none =>
      afterLocal O k now { s with store := lsRemove s.store "odoo_credentials" }
  | none => afterLocal O k now s

/-- Lines 42-47: if the session id changed since the globals were written,
drop the shared promise variable and the cache. -/
def sessionGuard (s : CState) : CState :=
  match s.globalSessionId with
  | some g =>
    if g != s.sessionId then
      { s with globalCredentialCheck := false
               globalCredentialStatus := none
               globalLastCheck := 0 }
    else s
  | none => s

/-- `checkCredentials(skipCache)` (lines 38-253), sequential view.  `tm d`
is the value of `Date.now()` at recursion depth `d`; the fuel bounds the
model of the recovery recursion, which the source does not bound
(`fuelOut` is the model running out, never a behaviour of the code).
Steps: clear the global cache if the session id changed (lines 42-48);
attach to an in-flight check (line 51); serve a fresh same-session cache
entry (lines 59-75); otherwise occupy the single-flight slot, run the task
body, and release the slot in `finally` (line 248). -/
def checkCredentialsGo (O : Oracle) (tm : Nat → Nat) :
    Nat → Bool → CState → CCResult × CState
  | 0, _, s => (.fuelOut, s)
  | fuel + 1, skipCache, s₀ =>
    let now := tm s₀.retries
    let s₂ := { sessionGuard s₀ with globalSessionId := some (sessionGuard s₀).sessionId }
    if s₂.globalCredentialCheck then (.attached, s₂)
    else if !skipCache && cacheFresh now s₂.globalLastCheck s₂.globalCredentialStatus then
      (.value (s₂.globalCredentialStatus.getD ⟨false, none⟩).isConfigured, s₂)
    else
      let p := taskBody O (checkCredentialsGo O tm fuel true) now
        { s₂ with globalCredentialCheck := true }
      (p.1, { p.2 with globalCredentialCheck := false })

/-- Response of the remote save endpoint (`{success, message?}`). -/
structure SaveResp where
  success : Bool
  message : Option String
deriving DecidableEq, Repr

/-- Input of `saveCredentials`: the connection descriptor including the
secret. -/
structure FullCreds where
  url : String
  database : String
  username : String
  password : String
deriving DecidableEq, Repr

/-- Return value of `saveCredentials`. -/
structure SaveOutcome where
  success : Bool
  error : Option String
deriving DecidableEq, Repr

/-- JavaScript `a || b` for an optional string. -/
def jsOr (o : Option String) (d : String) : String :=
  match o with
  | some v => if v != "" then v else d
  | none => d

/-- `saveCredentials(credentials)` (lines 389-433): the non-secret summary
`{url, database, username}` is written to `localStorage` before the remote
save; on a successful save the slot is released, `Configured` is cached and
`credentialsUpdated` dispatched; a failed or rejected save is caught and
reported, leaving the globals untouched. -/
def saveCredentials (Osave : Except Unit SaveResp) (now : Nat)
    (credentials : FullCreds) (s : CState) : SaveOutcome × CState :=
  let s₁ := { s with store := (lsSet s.store "odoo_credentials"
                (.credJson (some credentials.url) (some credentials.database)
                  (some credentials.username))) }
  match Osave with
  | .error _ => (⟨false, some "Failed to save credentials"⟩, s₁)
  | .ok r =>
    if r.success then
      (⟨true, none⟩,
       { s₁ with globalCredentialCheck := false
                 globalCredentialStatus := some ⟨true, none⟩
                 globalLastCheck := now
                 events := s₁.events ++ [.credentialsUpdated] })
    else
      (⟨false, some (jsOr r.message "Failed to save credentials on server")⟩, s₁)

/-- `clearCredentials()` (lines 436-461): the remote clear is awaited with
any rejection caught and only logged, and its response is ignored — hence
the oracle parameter is unused; then the local summary is removed, the slot
released, and `{isConfigured: false, error: null}` cached with a fresh
timestamp. -/
def clearCredentials (_Oclear : Except Unit Bool) (now : Nat) (s : CState) : CState :=
  { s with store := lsRemove s.store "odoo_credentials"
           globalCredentialCheck := false
           globalCredentialStatus := some ⟨false, none⟩
           globalLastCheck := now }

/-- An in-flight fetch task: its id, the `now` captured at its start
(line 57) — the value it will later blindly write into `globalLastCheck` —
and the session id it was started for. -/
structure FetchTask where
  id : Nat
  startNow : Nat
  sid : String
deriving DecidableEq, Repr

/-- What a `checkCredentials` caller observed on arrival. -/
inductive Outcome
  | created (id : Nat)
  | attachedTo (id : Nat)
  | servedFromCache (b : Bool)
deriving DecidableEq, Repr

/-- Interleaved view of the module-level globals for concurrent callers.
`inflight` holds every task whose async body has started and not completed;
`slot` is `globalCredentialCheck` (which task, if any, the shared promise
variable currently points to — clearing the variable does not stop the
underlying task); `calls` counts started remote round-trips. -/
structure GState where
  inflight : List FetchTask
  slot : Option Nat
  globalCredentialStatus : Option CredStatus
  globalLastCheck : Nat
  globalSessionId : Option String
  sessionId : String
  calls : Nat
  nextId : Nat
  log : List Outcome
deriving DecidableEq, Repr

/-- Scheduler events.  `arrive now` is the synchronous prefix of a
`checkCredentials(false)` call (lines 38-102 run without interleaving up to
the first `await`, which is a remote check in every branch of the body —
so creating a task starts exactly one round-trip before suspending).
`rotate` is the `sessionIdChanged` handler (lines 322-336) together with
the context update.  `complete id st` is an in-flight task resuming after
its awaited response and performing its completion writes (set
`globalCredentialStatus := st`, blindly set `globalLastCheck` to the `now`
captured at the task's start, and release the slot in `finally`). -/
inductive GEvent
  | arrive (now : Nat)
  | rotate (newSid : String)
  | complete (id : Nat) (st : CredStatus)
deriving DecidableEq, Repr

/-- The arrival step (session-change guard, single-flight attach, cache
check, task creation). -/
def arriveStep (now : Nat) (s : GState) : GState :=
  let s₁ :=
    match s.globalSessionId with
    | some g =>
      if g != s.sessionId then
        { s with slot := none, globalCredentialStatus := none, globalLastCheck := 0 }
      else s
    | none => s
  let s₂ := { s₁ with globalSessionId := some s₁.sessionId }
  match s₂.slot with
  | some tid => { s₂ with log := s₂.log ++ [.attachedTo tid] }
  | none =>
    if cacheFresh now s₂.globalLastCheck s₂.globalCredentialStatus then
      { s₂ with log := s₂.log ++
          [.servedFromCache (s₂.globalCredentialStatus.getD ⟨false, none⟩).isConfigured] }
    else
      { s₂ with inflight := s₂.inflight ++ [⟨s₂.nextId, now, s₂.sessionId⟩]
                slot := some s₂.nextId
                calls := s₂.calls + 1
                nextId := s₂.nextId + 1
                log := s₂.log ++ [.created s₂.nextId] }

/-- The `sessionIdChanged` handler: clear the shared promise variable and
the cache, adopt the new session id. -/
def rotateStep (newSid : String) (s : GState) : GState :=
  { s with slot := none
           globalCredentialStatus := none
           globalLastCheck := 0
           globalSessionId := some newSid
           sessionId := newSid }

/-- Completion of task `tid` with status `st`: the write is a blind
overwrite of `globalCredentialStatus`, and `globalLastCheck` receives the
`now` captured when the task started; the `finally` releases the slot
unconditionally.  (Per-branch `localStorage` effects are covered by the
sequential model.) -/
def completeStep (tid : Nat) (st : CredStatus) (s : GState) : GState :=
  match s.inflight.find? (fun t => t.id == tid) with
  | some t =>
    { s with inflight := s.inflight.filter (fun u => u.id != tid)
             globalCredentialStatus := some st
             globalLastCheck := t.startNow
             slot := none }
  | none => s

/-- One scheduler step. -/
def stepG : GEvent → GState → GState
  | .arrive now, s => arriveStep now s
  | .rotate sid, s => rotateStep sid s
  | .complete tid st, s => completeStep tid st s

/-- Run a trace of scheduler events. -/
def runEvents (evs : List GEvent) (s : GState) : GState :=
  evs.foldl (fun t e => stepG e t) s

/-- Fresh-boot sequential state: empty store, no cache, no in-flight check. -/
def freshCState (sid : String) : CState :=
  { store := []
    sessionId := sid
    globalCredentialCheck := false
    globalCredentialStatus := none
    globalLastCheck := 0
    globalSessionId := none
    events := []
    probed := []
    retries := 0 }

/-- Fresh-boot automaton state. -/
def freshGState (sid : String) : GState :=
  { inflight := []
    slot := none
    globalCredentialStatus := none
    globalLastCheck := 0
    globalSessionId := some sid
    sessionId := sid
    calls := 0
    nextId := 0
    log := [] }

/-- A remote service that reports no credentials for any session. -/
def allMissOracle : Oracle := fun _ _ => .ok ⟨false, none⟩

/-- A remote service on which every call is rejected (network failure). -/
def allErrorOracle : Oracle := fun _ _ => .error ()

/-- A store already holding a record of a prior session — the kind of entry
the spec's generalized scan is meant to discover. -/
def priorSessionStore : Store :=
  [("odoo_session_backup", .str "legacy-session-777")]

/-- State for the recovery-probe counterexamples: a live session whose
store carries a prior-session record. -/
def c5State : CState :=
  { freshCState "live-session" with store := priorSessionStore }

/-- A remote service whose answers change between the probe and the
subsequent re-check: it confirms a candidate during each recovery probe and
then denies it on the retry, driving repeated rotations. -/
def flipOracle : Oracle := fun i _ =>
  if i == 2 then .ok ⟨true, some ⟨"", "db", "user"⟩⟩
  else if i == 5 then .ok ⟨true, some ⟨"", "db", "user"⟩⟩
  else if i ≤ 4 then .ok ⟨false, none⟩
  else .ok ⟨true, some ⟨"http://erp", "db", "user"⟩⟩

/-- A remote service with no credentials for the current session but valid
ones for the first hardcoded candidate. -/
def recoveryHitOracle : Oracle := fun i _ =>
  if i == 0 then .ok ⟨false, none⟩
  else .ok ⟨true, some ⟨"http://erp", "db", "admin"⟩⟩

/-- The mid-flight-rotation trace: fetch A starts at `t1` for the original
session, the session rotates, fetch B starts at `t2` for the new session
and completes first; then A completes late. -/
def staleTrace (t1 t2 : Nat) (newSid : String) (stB stA : CredStatus) : List GEvent :=
  [.arrive t1, .rotate newSid, .arrive t2, .complete 1 stB, .complete 0 stA]

/-- `s'` is `s` with at most the probe instrumentation advanced: store,
session id, globals, events and retry counter untouched. -/
def ProbeOnly (s s' : CState) : Prop :=
  s' = { s with probed := s'.probed }

/-- Reading back the key just written. -/
theorem lsGet_lsSet (st : Store) (k : String) (v : StoreVal) :
    lsGet (lsSet st k v) k = some v := by
  simp [lsGet, lsSet, List.find?]

/-- A removed key reads back as absent. -/
theorem lsGet_lsRemove (st : Store) (k : String) :
    lsGet (lsRemove st k) k = none := by
  induction st with
  | nil => rfl
  | cons p rest ih =>
    by_cases h : p.1 = k
    · simpa [lsRemove, lsGet, h] using ih
    · simpa [lsRemove, lsGet, List.find?, h] using ih

theorem probeOnly_rfl (s : CState) : ProbeOnly s s := rfl

theorem probeOnly_trans {s₁ s₂ s₃ : CState}
    (h1 : ProbeOnly s₁ s₂) (h2 : ProbeOnly s₂ s₃) : ProbeOnly s₁ s₃ := by
  unfold ProbeOnly at *
  rw [h2, h1]

theorem ProbeOnly.store_eq {s s' : CState} (h : ProbeOnly s s') :
    s'.store = s.store := by rw [h]

theorem ProbeOnly.sessionId_eq {s s' : CState} (h : ProbeOnly s s') :
    s'.sessionId = s.sessionId := by rw [h]

theorem ProbeOnly.events_eq {s s' : CState} (h : ProbeOnly s s') :
    s'.events = s.events := by rw [h]

theorem ProbeOnly.globals_eq {s s' : CState} (h : ProbeOnly s s') :
    s'.globalCredentialCheck = s.globalCredentialCheck ∧
    s'.globalCredentialStatus = s.globalCredentialStatus ∧
    s'.globalLastCheck = s.globalLastCheck ∧
    s'.globalSessionId = s.globalSessionId ∧
    s'.retries = s.retries := by rw [h]; exact ⟨rfl, rfl, rfl, rfl, rfl⟩

theorem probeOnly_probedUpdate (s : CState) (p : List String) :
    ProbeOnly s { s with probed := p } := rfl

theorem probeOnly_remoteCall (O : Oracle) (sid : String) (s : CState) :
    ProbeOnly s (remoteCall O sid s).2 := rfl

/-- The candidate loop only issues remote checks; it mutates nothing. -/
theorem probeOnly_tryCandidates (O : Oracle) (cur : String) :
    ∀ (l : List String) (s : CState), ProbeOnly s (tryCandidates O cur l s).2 := by
  intro l
  induction l with
  | nil => intro s; exact probeOnly_rfl s
  | cons t rest ih =>
    intro s
    simp only [tryCandidates, remoteCall]
    split
    · exact ih s
    · cases hr : O s.probed.length t with
      | error e => simp only [hr]; exact probeOnly_trans (probeOnly_probedUpdate s _) (ih _)
      | ok r =>
        simp only [hr]
        split
        · cases hc : r.credentials with
          | some c => simp only [hc]; exact probeOnly_probedUpdate s _
          | none =>
            simp only [hc]
            exact probeOnly_trans (probeOnly_probedUpdate s _) (ih _)
        · exact probeOnly_trans (probeOnly_probedUpdate s _) (ih _)

/-- `findAvailableSession` only issues remote checks; it mutates nothing. -/
theorem probeOnly_findAvailableSession (O : Oracle) (cur : String) (s : CState) :
    ProbeOnly s (findAvailableSession O cur s).2 := by
  simp only [findAvailableSession, remoteCall]
  cases hr : O s.probed.length cur with
  | error e => simp only [hr]; exact probeOnly_probedUpdate s _
  | ok r =>
    simp only [hr]
    split
    · cases hc : r.credentials with
      | some c => simp only [hc]; exact probeOnly_probedUpdate s _
      | none =>
        simp only [hc]
        exact probeOnly_trans (probeOnly_probedUpdate s _)
          (probeOnly_tryCandidates O cur commonSessions _)
    · exact probeOnly_trans (probeOnly_probedUpdate s _)
        (probeOnly_tryCandidates O cur commonSessions _)


/-- `recoverSession` never touches the module-level globals or the retry
counter, whatever its outcome. -/
theorem recoverSession_globals (O : Oracle) (s : CState) :
    (recoverSession O s).2.globalCredentialCheck = s.globalCredentialCheck ∧
    (recoverSession O s).2.globalCredentialStatus = s.globalCredentialStatus ∧
    (recoverSession O s).2.globalLastCheck = s.globalLastCheck ∧
    (recoverSession O s).2.globalSessionId = s.globalSessionId ∧
    (recoverSession O s).2.retries = s.retries := by
  have hp := probeOnly_findAvailableSession O s.sessionId s
  cases hr : findAvailableSession O s.sessionId s with
  | mk r s' =>
    rw [hr] at hp
    obtain ⟨h1, h2, h3, h4, h5⟩ := hp.globals_eq
    cases r with
    | none => simp only [recoverSession, hr]; exact ⟨h1, h2, h3, h4, h5⟩
    | some p =>
      cases p with
      | mk sid c =>
        by_cases hs : (sid != s.sessionId) = true
        · simp only [recoverSession, hr, hs, if_true, updateSessionId]
          exact ⟨h1, h2, h3, h4, h5⟩
        · simp only [Bool.not_eq_true] at hs
          simp only [recoverSession, hr, hs, Bool.false_eq_true, if_false]
          exact ⟨h1, h2, h3, h4, h5⟩

theorem recoverSession_false_frame (O : Oracle) (s : CState)
    (h : (recoverSession O s).1 = false) :
    ProbeOnly s (recoverSession O s).2 := by
  have hp := probeOnly_findAvailableSession O s.sessionId s
  cases hr : findAvailableSession O s.sessionId s with
  | mk r s' =>
    rw [hr] at hp
    cases r with
    | none => simp only [recoverSession, hr]; exact hp
    | some p =>
      cases p with
      | mk sid c =>
        by_cases hs : (sid != s.sessionId) = true
        · rw [recoverSession, hr] at h
          simp only [hs, if_true] at h
          exact absurd h (by simp)
        · simp only [Bool.not_eq_true] at hs
          simp only [recoverSession, hr, hs, Bool.false_eq_true, if_false]
          exact hp

theorem tryCandidates_some (O : Oracle) (cur : String) :
    ∀ (l : List String) (s : CState) (t : String) (c : Creds),
      (tryCandidates O cur l s).1 = some (t, c) →
      ∃ i, O i t = .ok ⟨true, some c⟩ := by
  intro l
  induction l with
  | nil => intro s t c h; simp [tryCandidates] at h
  | cons x rest ih =>
    intro s t c h
    by_cases hx : (x == cur) = true
    · rw [tryCandidates] at h
      rw [if_pos hx] at h
      exact ih _ _ _ h
    · cases hr : O s.probed.length x with
      | error e =>
        simp only [tryCandidates, remoteCall, hx, Bool.false_eq_true, if_false, hr] at h
        exact ih _ _ _ h
      | ok r =>
        by_cases hsu : r.success = true
        · cases hc : r.credentials with
          | some c' =>
            simp only [tryCandidates, remoteCall, hx, Bool.false_eq_true, if_false,
              hr, hsu, if_true, hc, Option.some.injEq, Prod.mk.injEq] at h
            refine ⟨s.probed.length, ?_⟩
            rw [← h.1, hr]
            cases r with
            | mk su cr =>
              simp only at hsu hc
              rw [hsu, hc, h.2]
          | none =>
            simp only [tryCandidates, remoteCall, hx, Bool.false_eq_true, if_false,
              hr, hsu, if_true, hc] at h
            exact ih _ _ _ h
        · simp only [Bool.not_eq_true] at hsu
          simp only [tryCandidates, remoteCall, hx, Bool.false_eq_true, if_false,
            hr, hsu, if_false] at h
          exact ih _ _ _ h

theorem findAvailableSession_some (O : Oracle) (cur : String) (s : CState)
    (t : String) (c : Creds)
    (h : (findAvailableSession O cur s).1 = some (t, c)) :
    ∃ i, O i t = .ok ⟨true, some c⟩ := by
  cases hr : O s.probed.length cur with
  | error e =>
    simp only [findAvailableSession, remoteCall, hr] at h
    exact Option.noConfusion h
  | ok r =>
    by_cases hsu : r.success = true
    · cases hc : r.credentials with
      | some c' =>
        simp only [findAvailableSession, remoteCall, hr, hsu, if_true, hc,
          Option.some.injEq, Prod.mk.injEq] at h
        refine ⟨s.probed.length, ?_⟩
        rw [← h.1, hr]
        cases r with
        | mk su cr =>
          simp only at hsu hc
          rw [hsu, hc, h.2]
      | none =>
        simp only [findAvailableSession, remoteCall, hr, hsu, if_true, hc] at h
        exact tryCandidates_some O cur _ _ _ _ h
    · simp only [Bool.not_eq_true] at hsu
      simp only [findAvailableSession, remoteCall, hr, hsu, Bool.false_eq_true, if_false] at h
      exact tryCandidates_some O cur _ _ _ _ h

theorem recoverSession_true (O : Oracle) (s : CState)
    (h : (recoverSession O s).1 = true) :
    ∃ c : Creds,
      (∃ i, O i (recoverSession O s).2.sessionId = .ok ⟨true, some c⟩) ∧
      lsGet (recoverSession O s).2.store "odoo_credentials" =
        some (.credJson (some c.url) (some c.database) (some c.username)) := by
  cases hr : findAvailableSession O s.sessionId s with
  | mk r s' =>
    cases r with
    | none => rw [recoverSession, hr] at h; simp at h
    | some p =>
      cases p with
      | mk sid c =>
        by_cases hs : (sid != s.sessionId) = true
        · have hev := findAvailableSession_some O s.sessionId s sid c (by rw [hr])
          refine ⟨c, ?_, ?_⟩
          · simp only [recoverSession, hr, hs, if_true, updateSessionId]
            exact hev
          · simp only [recoverSession, hr, hs, if_true, updateSessionId]
            exact lsGet_lsSet _ _ _
        · simp only [Bool.not_eq_true] at hs
          rw [recoverSession, hr] at h
          simp only [hs, Bool.false_eq_true, if_false] at h

/-- The session-change guard never touches the store, the session id, the
events, the probe log or the retry counter. -/
theorem sessionGuard_frame (s : CState) :
    (sessionGuard s).store = s.store ∧ (sessionGuard s).sessionId = s.sessionId ∧
    (sessionGuard s).events = s.events ∧ (sessionGuard s).probed = s.probed ∧
    (sessionGuard s).retries = s.retries := by
  cases hg : s.globalSessionId with
  | none => simp [sessionGuard, hg]
  | some g =>
    by_cases h : (g != s.sessionId) = true
    · simp [sessionGuard, hg, h]
    · simp [sessionGuard, hg, h]

theorem sessionGuard_check_false (s : CState) (h : s.globalCredentialCheck = false) :
    (sessionGuard s).globalCredentialCheck = false := by
  cases hg : s.globalSessionId with
  | none => simp [sessionGuard, hg, h]
  | some g =>
    by_cases hb : (g != s.sessionId) = true
    · simp [sessionGuard, hg, hb]
    · simp [sessionGuard, hg, hb, h]

theorem sessionGuard_same (s : CState) (h : s.globalSessionId = some s.sessionId) :
    sessionGuard s = s := by
  simp [sessionGuard, h]

theorem sessionGuard_none_eq (s : CState) (h : s.globalSessionId = none) :
    sessionGuard s = s := by
  simp [sessionGuard, h]

theorem sessionGuard_diff (s : CState) (g : String) (h : s.globalSessionId = some g)
    (hne : (g != s.sessionId) = true) :
    sessionGuard s = { s with globalCredentialCheck := false
                              globalCredentialStatus := none
                              globalLastCheck := 0 } := by
  simp [sessionGuard, h, hne]

/-- Step lemma: an invocation whose guard output shows no in-flight check
and a cache miss runs the task body in the occupied slot and releases the
slot afterwards. -/
theorem checkCredentialsGo_miss (O : Oracle) (tm : Nat → Nat) (fuel : Nat)
    (skipCache : Bool) (s u : CState)
    (hu : sessionGuard s = u)
    (hc : u.globalCredentialCheck = false)
    (hm : (!skipCache && cacheFresh (tm s.retries) u.globalLastCheck
            u.globalCredentialStatus) = false) :
    checkCredentialsGo O tm (fuel + 1) skipCache s =
      ((taskBody O (checkCredentialsGo O tm fuel true) (tm s.retries)
          { u with globalSessionId := some u.sessionId,
                   globalCredentialCheck := true }).1,
       { (taskBody O (checkCredentialsGo O tm fuel true) (tm s.retries)
          { u with globalSessionId := some u.sessionId,
                   globalCredentialCheck := true }).2
         with globalCredentialCheck := false }) := by
  simp only [checkCredentialsGo, hu, hc, hm]
  simp

/-- Step lemma: with no in-flight check and a fresh cache, the cached
status is returned and the state is only renormalized. -/
theorem checkCredentialsGo_hit (O : Oracle) (tm : Nat → Nat) (fuel : Nat) (s u : CState)
    (hu : sessionGuard s = u)
    (hc : u.globalCredentialCheck = false)
    (hm : cacheFresh (tm s.retries) u.globalLastCheck u.globalCredentialStatus = true) :
    checkCredentialsGo O tm (fuel + 1) false s =
      (.value (u.globalCredentialStatus.getD ⟨false, none⟩).isConfigured,
       { u with globalSessionId := some u.sessionId }) := by
  simp only [checkCredentialsGo, hu, hc, hm]
  simp

/-- Step lemma: an in-flight check absorbs the arrival. -/
theorem checkCredentialsGo_attach (O : Oracle) (tm : Nat → Nat) (fuel : Nat)
    (skipCache : Bool) (s u : CState)
    (hu : sessionGuard s = u)
    (hc : u.globalCredentialCheck = true) :
    checkCredentialsGo O tm (fuel + 1) skipCache s =
      (.attached, { u with globalSessionId := some u.sessionId }) := by
  simp only [checkCredentialsGo, hu, hc]
  simp

theorem probed_le_tryCandidates (O : Oracle) (cur : String) :
    ∀ (l : List String) (s : CState),
      s.probed.length ≤ (tryCandidates O cur l s).2.probed.length := by
  intro l
  induction l with
  | nil => intro s; simp [tryCandidates]
  | cons x rest ih =>
    intro s
    by_cases hx : (x == cur) = true
    · rw [tryCandidates, if_pos hx]; exact ih s
    · cases hr : O s.probed.length x with
      | error e =>
        simp only [tryCandidates, remoteCall, hx, Bool.false_eq_true, if_false, hr]
        exact le_trans (by simp) (ih { s with probed := s.probed ++ [x] })
      | ok r =>
        by_cases hsu : r.success = true
        · cases hc : r.credentials with
          | some c =>
            simp only [tryCandidates, remoteCall, hx, Bool.false_eq_true, if_false,
              hr, hsu, if_true, hc]
            simp
          | none =>
            simp only [tryCandidates, remoteCall, hx, Bool.false_eq_true, if_false,
              hr, hsu, if_true, hc]
            exact le_trans (by simp) (ih { s with probed := s.probed ++ [x] })
        · simp only [Bool.not_eq_true] at hsu
          simp only [tryCandidates, remoteCall, hx, Bool.false_eq_true, if_false,
            hr, hsu, Bool.false_eq_true, if_false]
          exact le_trans (by simp) (ih { s with probed := s.probed ++ [x] })

theorem probed_le_findAvailableSession (O : Oracle) (cur : String) (s : CState) :
    s.probed.length ≤ (findAvailableSession O cur s).2.probed.length := by
  cases hr : O s.probed.length cur with
  | error e =>
    simp only [findAvailableSession, remoteCall, hr]
    simp
  | ok r =>
    by_cases hsu : r.success = true
    · cases hc : r.credentials with
      | some c =>
        simp only [findAvailableSession, remoteCall, hr, hsu, if_true, hc]
        simp
      | none =>
        simp only [findAvailableSession, remoteCall, hr, hsu, if_true, hc]
        exact le_trans (by simp)
          (probed_le_tryCandidates O cur commonSessions { s with probed := s.probed ++ [cur] })
    · simp only [Bool.not_eq_true] at hsu
      simp only [findAvailableSession, remoteCall, hr, hsu, Bool.false_eq_true, if_false]
      exact le_trans (by simp)
        (probed_le_tryCandidates O cur commonSessions { s with probed := s.probed ++ [cur] })

theorem probed_le_recoverSession (O : Oracle) (s : CState) :
    s.probed.length ≤ (recoverSession O s).2.probed.length := by
  have hf := probed_le_findAvailableSession O s.sessionId s
  cases hr : findAvailableSession O s.sessionId s with
  | mk r s' =>
    rw [hr] at hf
    cases r with
    | none => simp only [recoverSession, hr]; exact hf
    | some p =>
      cases p with
      | mk sid c =>
        by_cases hs : (sid != s.sessionId) = true
        · simp only [recoverSession, hr, hs, if_true, updateSessionId]
          exact hf
        · simp only [Bool.not_eq_true] at hs
          simp only [recoverSession, hr, hs, Bool.false_eq_true, if_false]
          exact hf

theorem probed_le_recoveryAndRetry (O : Oracle) (k : CState → CCResult × CState)
    (now : Nat) (s : CState)
    (hk : ∀ t, t.probed.length ≤ (k t).2.probed.length) :
    s.probed.length ≤ (recoveryAndRetry O k now s).2.probed.length := by
  have hrec := probed_le_recoverSession O s
  cases hr : recoverSession O s with
  | mk b s₁ =>
    rw [hr] at hrec
    cases b with
    | true =>
      simp only [recoveryAndRetry, hr]
      refine le_trans hrec (le_trans (le_of_eq ?_) (hk _))
      rfl
    | false =>
      simp only [recoveryAndRetry, hr]
      exact hrec

theorem probed_succ_afterLocal (O : Oracle) (k : CState → CCResult × CState)
    (now : Nat) (s : CState)
    (hk : ∀ t, t.probed.length ≤ (k t).2.probed.length) :
    s.probed.length + 1 ≤ (afterLocal O k now s).2.probed.length := by
  cases hr : O s.probed.length s.sessionId with
  | error e =>
    simp only [afterLocal, remoteCall, hr]
    simp
  | ok r =>
    by_cases hsu : r.success = true
    · cases hc : r.credentials with
      | some c =>
        simp only [afterLocal, remoteCall, hr, hsu, if_true, hc]
        simp
      | none =>
        simp only [afterLocal, remoteCall, hr, hsu, if_true, hc]
        exact le_trans (by simp)
          (probed_le_recoveryAndRetry O k now { s with probed := s.probed ++ [s.sessionId] } hk)
    · simp only [Bool.not_eq_true] at hsu
      simp only [afterLocal, remoteCall, hr, hsu, Bool.false_eq_true, if_false]
      exact le_trans (by simp)
        (probed_le_recoveryAndRetry O k now { s with probed := s.probed ++ [s.sessionId] } hk)

theorem probed_succ_taskBody (O : Oracle) (k : CState → CCResult × CState)
    (now : Nat) (s : CState)
    (hk : ∀ t, t.probed.length ≤ (k t).2.probed.length) :
    s.probed.length + 1 ≤ (taskBody O k now s).2.probed.length := by
  cases hv : lsGet s.store "odoo_credentials" with
  | none =>
    simp only [taskBody, hv]
    exact probed_succ_afterLocal O k now s hk
  | some v =>
    cases hp : parseCredJson v with
    | none =>
      simp only [taskBody, hv, hp]
      exact probed_succ_afterLocal O k now
        { s with store := lsRemove s.store "odoo_credentials" } hk
    | some trip =>
      cases trip with
      | mk u rest2 =>
        cases rest2 with
        | mk d n =>
          by_cases ht : (truthy u && truthy d && truthy n) = true
          · cases hr : O s.probed.length s.sessionId with
            | error e =>
              simp only [taskBody, hv, hp, ht, if_true, remoteCall, hr]
              exact le_trans (by simp)
                (probed_succ_afterLocal O k now
                  { s with store := lsRemove s.store "odoo_credentials",
                           probed := s.probed ++ [s.sessionId] } hk)
            | ok r =>
              by_cases hsu : (r.success && r.credentials.isSome) = true
              · simp only [taskBody, hv, hp, ht, if_true, remoteCall, hr, hsu]
                simp
              · simp only [Bool.not_eq_true] at hsu
                simp only [taskBody, hv, hp, ht, if_true, remoteCall, hr, hsu,
                  Bool.false_eq_true, if_false]
                simp
          · simp only [Bool.not_eq_true] at ht
            simp only [taskBody, hv, hp, ht, Bool.false_eq_true, if_false]
            exact probed_succ_afterLocal O k now
              { s with store := lsRemove s.store "odoo_credentials" } hk

theorem probed_le_checkCredentialsGo (O : Oracle) (tm : Nat → Nat) :
    ∀ (fuel : Nat) (skipCache : Bool) (s : CState),
      s.probed.length ≤ (checkCredentialsGo O tm fuel skipCache s).2.probed.length := by
  intro fuel
  induction fuel with
  | zero => intro skipCache s; simp [checkCredentialsGo]
  | succ fuel ih =>
    intro skipCache s
    have hk : ∀ t : CState, t.probed.length ≤
        (checkCredentialsGo O tm fuel true t).2.probed.length := fun t => ih true t
    have hfr := sessionGuard_frame s
    generalize hu : sessionGuard s = u at hfr
    obtain ⟨hstore, hsid, hev, hpr, hrt⟩ := hfr
    by_cases hc : u.globalCredentialCheck = true
    · rw [checkCredentialsGo_attach O tm fuel skipCache s u hu hc]
      simp [hpr]
    · have hc' : u.globalCredentialCheck = false := by
        revert hc; cases u.globalCredentialCheck <;> simp
      by_cases hm : (!skipCache && cacheFresh (tm s.retries) u.globalLastCheck
          u.globalCredentialStatus) = true
      · have hsk : skipCache = false := by
          revert hm; cases skipCache <;> simp
        subst hsk
        have hcf : cacheFresh (tm s.retries) u.globalLastCheck
            u.globalCredentialStatus = true := by simpa using hm
        rw [checkCredentialsGo_hit O tm fuel s u hu hc' hcf]
        simp [hpr]
      · have hm' : (!skipCache && cacheFresh (tm s.retries) u.globalLastCheck
            u.globalCredentialStatus) = false := by
          revert hm
          cases (!skipCache && cacheFresh (tm s.retries) u.globalLastCheck
            u.globalCredentialStatus) <;> simp
        rw [checkCredentialsGo_miss O tm fuel skipCache s u hu hc' hm']
        have h1 := probed_succ_taskBody O (checkCredentialsGo O tm fuel true) (tm s.retries)
          { u with globalSessionId := some u.sessionId, globalCredentialCheck := true } hk
        simp only [CState.probed] at h1 ⊢
        refine le_trans ?_ h1
        simp [hpr]

/-- The recovery branch preserves the catch discipline of the task body:
a non-rejecting retry continuation keeps the whole branch non-rejecting. -/
theorem noThrow_recoveryAndRetry (O : Oracle) (k : CState → CCResult × CState)
    (now : Nat) (s : CState)
    (hk : ∀ t, isRejection (k t).1 = false) :
    isRejection (recoveryAndRetry O k now s).1 = false := by
  cases hr : recoverSession O s with
  | mk b s₁ =>
    cases b with
    | true => simp only [recoveryAndRetry, hr]; exact hk _
    | false => simp only [recoveryAndRetry, hr]; rfl

theorem noThrow_afterLocal (O : Oracle) (k : CState → CCResult × CState)
    (now : Nat) (s : CState)
    (hk : ∀ t, isRejection (k t).1 = false) :
    isRejection (afterLocal O k now s).1 = false := by
  cases hr : O s.probed.length s.sessionId with
  | error e => simp only [afterLocal, remoteCall, hr]; rfl
  | ok r =>
    by_cases hsu : r.success = true
    · cases hc : r.credentials with
      | some c => simp only [afterLocal, remoteCall, hr, hsu, if_true, hc]; rfl
      | none =>
        simp only [afterLocal, remoteCall, hr, hsu, if_true, hc]
        exact noThrow_recoveryAndRetry O k now _ hk
    · simp only [Bool.not_eq_true] at hsu
      simp only [afterLocal, remoteCall, hr, hsu, Bool.false_eq_true, if_false]
      exact noThrow_recoveryAndRetry O k now _ hk

theorem noThrow_taskBody (O : Oracle) (k : CState → CCResult × CState)
    (now : Nat) (s : CState)
    (hk : ∀ t, isRejection (k t).1 = false) :
    isRejection (taskBody O k now s).1 = false := by
  cases hv : lsGet s.store "odoo_credentials" with
  | none => simp only [taskBody, hv]; exact noThrow_afterLocal O k now s hk
  | some v =>
    cases hp : parseCredJson v with
    | none =>
      simp only [taskBody, hv, hp]
      exact noThrow_afterLocal O k now _ hk
    | some trip =>
      cases trip with
      | mk u rest2 =>
        cases rest2 with
        | mk d n =>
          by_cases ht : (truthy u && truthy d && truthy n) = true
          · cases hr : O s.probed.length s.sessionId with
            | error e =>
              simp only [taskBody, hv, hp, ht, if_true, remoteCall, hr]
              exact noThrow_afterLocal O k now _ hk
            | ok r =>
              by_cases hsu : (r.success && r.credentials.isSome) = true
              · simp only [taskBody, hv, hp, ht, if_true, remoteCall, hr, hsu]; rfl
              · simp only [Bool.not_eq_true] at hsu
                simp only [taskBody, hv, hp, ht, if_true, remoteCall, hr, hsu,
                  Bool.false_eq_true, if_false]
                rfl
          · simp only [Bool.not_eq_true] at ht
            simp only [taskBody, hv, hp, ht, Bool.false_eq_true, if_false]
            exact noThrow_afterLocal O k now _ hk

theorem noThrow_checkCredentialsGo (O : Oracle) (tm : Nat → Nat) :
    ∀ (fuel : Nat) (skipCache : Bool) (s : CState),
      isRejection (checkCredentialsGo O tm fuel skipCache s).1 = false := by
  intro fuel
  induction fuel with
  | zero => intro skipCache s; rfl
  | succ fuel ih =>
    intro skipCache s
    have hk : ∀ t : CState,
        isRejection (checkCredentialsGo O tm fuel true t).1 = false := fun t => ih true t
    by_cases hc : (sessionGuard s).globalCredentialCheck = true
    · rw [checkCredentialsGo_attach O tm fuel skipCache s (sessionGuard s) rfl hc]
      rfl
    · have hc' : (sessionGuard s).globalCredentialCheck = false := by
        revert hc; cases (sessionGuard s).globalCredentialCheck <;> simp
      by_cases hm : (!skipCache && cacheFresh (tm s.retries)
          (sessionGuard s).globalLastCheck (sessionGuard s).globalCredentialStatus) = true
      · have hsk : skipCache = false := by
          revert hm; cases skipCache <;> simp
        subst hsk
        have hcf : cacheFresh (tm s.retries) (sessionGuard s).globalLastCheck
            (sessionGuard s).globalCredentialStatus = true := by simpa using hm
        rw [checkCredentialsGo_hit O tm fuel s (sessionGuard s) rfl hc' hcf]
        rfl
      · have hm' : (!skipCache && cacheFresh (tm s.retries)
            (sessionGuard s).globalLastCheck (sessionGuard s).globalCredentialStatus) = false := by
          revert hm
          cases (!skipCache && cacheFresh (tm s.retries) (sessionGuard s).globalLastCheck
            (sessionGuard s).globalCredentialStatus) <;> simp
        rw [checkCredentialsGo_miss O tm fuel skipCache s (sessionGuard s) rfl hc' hm']
        exact noThrow_taskBody O _ _ _ hk

theorem afterLocal_confirm (O : Oracle) (k : CState → CCResult × CState)
    (now : Nat) (s : CState) (c : Creds)
    (hO : ∀ i, O i s.sessionId = .ok ⟨true, some c⟩) :
    (afterLocal O k now s).1 = .value true ∧
    (afterLocal O k now s).2.retries = s.retries := by
  simp only [afterLocal, remoteCall, hO s.probed.length]
  simp

theorem taskBody_confirm (O : Oracle) (k : CState → CCResult × CState)
    (now : Nat) (s : CState) (c : Creds)
    (hO : ∀ i, O i s.sessionId = .ok ⟨true, some c⟩) :
    (taskBody O k now s).1 = .value true ∧
    (taskBody O k now s).2.retries = s.retries := by
  cases hv : lsGet s.store "odoo_credentials" with
  | none => simp only [taskBody, hv]; exact afterLocal_confirm O k now s c hO
  | some v =>
    cases hp : parseCredJson v with
    | none =>
      simp only [taskBody, hv, hp]
      exact afterLocal_confirm O k now
        { s with store := lsRemove s.store "odoo_credentials" } c hO
    | some trip =>
      cases trip with
      | mk u rest2 =>
        cases rest2 with
        | mk d n =>
          by_cases ht : (truthy u && truthy d && truthy n) = true
          · simp only [taskBody, hv, hp, ht, if_true, remoteCall, hO]
            simp
          · simp only [Bool.not_eq_true] at ht
            simp only [taskBody, hv, hp, ht, Bool.false_eq_true, if_false]
            exact afterLocal_confirm O k now
              { s with store := lsRemove s.store "odoo_credentials" } c hO

/-- If every remote answer for the state's session id confirms credentials
and no check is in flight, a cache-skipping invocation resolves `true`
without retrying. -/
theorem checkCredentialsGo_confirm (O : Oracle) (tm : Nat → Nat) (fuel : Nat)
    (s : CState) (c : Creds)
    (hO : ∀ i, O i s.sessionId = .ok ⟨true, some c⟩)
    (hc : s.globalCredentialCheck = false) :
    (checkCredentialsGo O tm (fuel + 1) true s).1 = .value true ∧
    (checkCredentialsGo O tm (fuel + 1) true s).2.retries = s.retries := by
  have hfr := sessionGuard_frame s
  have hcg := sessionGuard_check_false s hc
  generalize hu : sessionGuard s = u at hfr hcg
  obtain ⟨hstore, hsid, hev, hpr, hrt⟩ := hfr
  rw [checkCredentialsGo_miss O tm fuel true s u hu hcg (by simp)]
  have hO' : ∀ i, O i u.sessionId = .ok ⟨true, some c⟩ := by
    intro i
    rw [hsid]
    exact hO i
  have h := taskBody_confirm O (checkCredentialsGo O tm fuel true) (tm s.retries)
    { u with globalSessionId := some u.sessionId, globalCredentialCheck := true } c hO'
  refine ⟨h.1, ?_⟩
  show (taskBody O (checkCredentialsGo O tm fuel true) (tm s.retries)
    { u with globalSessionId := some u.sessionId, globalCredentialCheck := true }).2.retries = _
  rw [h.2]
  show u.retries = s.retries
  exact hrt

/-- Under a remote service whose answers do not change within the cycle,
the recovery branch resolves and performs at most one retry. -/
theorem recoveryAndRetry_stable (O : Oracle) (k : CState → CCResult × CState)
    (now : Nat) (s : CState)
    (hst : ∀ i j sid, O i sid = O j sid)
    (hk : ∀ (t : CState) (c : Creds), (∀ i, O i t.sessionId = .ok ⟨true, some c⟩) →
      t.globalCredentialCheck = false → (k t).1 = .value true ∧ (k t).2.retries = t.retries) :
    (∃ b, (recoveryAndRetry O k now s).1 = .value b) ∧
    (recoveryAndRetry O k now s).2.retries ≤ s.retries + 1 := by
  have hg := recoverSession_globals O s
  cases hr : recoverSession O s with
  | mk b s₁ =>
    rw [hr] at hg
    cases b with
    | false =>
      simp only [recoveryAndRetry, hr]
      exact ⟨⟨false, rfl⟩, Nat.le_succ_of_le (Nat.le_of_eq hg.2.2.2.2)⟩
    | true =>
      have htrue := recoverSession_true O s (by rw [hr])
      rw [hr] at htrue
      obtain ⟨c, ⟨i0, hev0⟩, _⟩ := htrue
      have hO : ∀ i, O i s₁.sessionId = .ok ⟨true, some c⟩ := fun i => by
        rw [hst i i0]; exact hev0
      simp only [recoveryAndRetry, hr]
      have h := hk { s₁ with globalCredentialCheck := false
                             globalCredentialStatus := none
                             globalLastCheck := 0
                             retries := s₁.retries + 1 } c hO rfl
      refine ⟨⟨true, h.1⟩, ?_⟩
      rw [h.2]
      show s₁.retries + 1 ≤ s.retries + 1
      rw [hg.2.2.2.2]

theorem afterLocal_stable (O : Oracle) (k : CState → CCResult × CState)
    (now : Nat) (s : CState)
    (hst : ∀ i j sid, O i sid = O j sid)
    (hk : ∀ (t : CState) (c : Creds), (∀ i, O i t.sessionId = .ok ⟨true, some c⟩) →
      t.globalCredentialCheck = false → (k t).1 = .value true ∧ (k t).2.retries = t.retries) :
    (∃ b, (afterLocal O k now s).1 = .value b) ∧
    (afterLocal O k now s).2.retries ≤ s.retries + 1 := by
  cases hr : O s.probed.length s.sessionId with
  | error e =>
    simp only [afterLocal, remoteCall, hr]
    exact ⟨⟨false, rfl⟩, Nat.le_succ _⟩
  | ok r =>
    by_cases hsu : r.success = true
    · cases hc : r.credentials with
      | some c =>
        simp only [afterLocal, remoteCall, hr, hsu, if_true, hc]
        exact ⟨⟨true, rfl⟩, Nat.le_succ _⟩
      | none =>
        simp only [afterLocal, remoteCall, hr, hsu, if_true, hc]
        have h := recoveryAndRetry_stable O k now
          { s with probed := s.probed ++ [s.sessionId] } hst hk
        exact ⟨h.1, h.2⟩
    · simp only [Bool.not_eq_true] at hsu
      simp only [afterLocal, remoteCall, hr, hsu, Bool.false_eq_true, if_false]
      have h := recoveryAndRetry_stable O k now
        { s with probed := s.probed ++ [s.sessionId] } hst hk
      exact ⟨h.1, h.2⟩

theorem taskBody_stable (O : Oracle) (k : CState → CCResult × CState)
    (now : Nat) (s : CState)
    (hst : ∀ i j sid, O i sid = O j sid)
    (hk : ∀ (t : CState) (c : Creds), (∀ i, O i t.sessionId = .ok ⟨true, some c⟩) →
      t.globalCredentialCheck = false → (k t).1 = .value true ∧ (k t).2.retries = t.retries) :
    (∃ b, (taskBody O k now s).1 = .value b) ∧
    (taskBody O k now s).2.retries ≤ s.retries + 1 := by
  cases hv : lsGet s.store "odoo_credentials" with
  | none => simp only [taskBody, hv]; exact afterLocal_stable O k now s hst hk
  | some v =>
    cases hp : parseCredJson v with
    | none =>
      simp only [taskBody, hv, hp]
      exact afterLocal_stable O k now
        { s with store := lsRemove s.store "odoo_credentials" } hst hk
    | some trip =>
      cases trip with
      | mk u rest2 =>
        cases rest2 with
        | mk d n =>
          by_cases ht : (truthy u && truthy d && truthy n) = true
          · cases hr : O s.probed.length s.sessionId with
            | error e =>
              simp only [taskBody, hv, hp, ht, if_true, remoteCall, hr]
              exact afterLocal_stable O k now
                { s with store := lsRemove s.store "odoo_credentials",
                         probed := s.probed ++ [s.sessionId] } hst hk
            | ok r =>
              by_cases hsu : (r.success && r.credentials.isSome) = true
              · simp only [taskBody, hv, hp, ht, if_true, remoteCall, hr, hsu]
                exact ⟨⟨true, rfl⟩, Nat.le_succ _⟩
              · simp only [Bool.not_eq_true] at hsu
                simp only [taskBody, hv, hp, ht, if_true, remoteCall, hr, hsu,
                  Bool.false_eq_true, if_false]
                exact ⟨⟨false, rfl⟩, Nat.le_succ _⟩
          · simp only [Bool.not_eq_true] at ht
            simp only [taskBody, hv, hp, ht, Bool.false_eq_true, if_false]
            exact afterLocal_stable O k now
              { s with store := lsRemove s.store "odoo_credentials" } hst hk

/-- An arrival that finds the single-flight slot occupied (same session)
only logs an attachment. -/
theorem arrive_attach (now : Nat) (s : GState) (i : Nat)
    (h1 : s.slot = some i) (h2 : s.globalSessionId = some s.sessionId) :
    arriveStep now s = { s with log := s.log ++ [.attachedTo i] } := by
  cases s with
  | mk inflight slot st lc gsid sid calls nid log =>
    simp only at h1 h2
    subst h1 h2
    simp [arriveStep]

/-- An arrival with a free slot and no cached status creates a task:
exactly one round-trip starts. -/
theorem arrive_create_facts (now : Nat) (s : GState)
    (h1 : s.slot = none) (h2 : s.globalCredentialStatus = none) :
    (arriveStep now s).slot = some s.nextId ∧
    (arriveStep now s).inflight = s.inflight ++ [⟨s.nextId, now, s.sessionId⟩] ∧
    (arriveStep now s).calls = s.calls + 1 ∧
    (arriveStep now s).nextId = s.nextId + 1 ∧
    (arriveStep now s).log = s.log ++ [.created s.nextId] ∧
    (arriveStep now s).globalSessionId = some (arriveStep now s).sessionId ∧
    (arriveStep now s).sessionId = s.sessionId := by
  cases s with
  | mk inflight slot st lc gsid sid calls nid log =>
    simp only at h1 h2
    subst h1 h2
    cases gsid with
    | none => simp [arriveStep, cacheFresh]
    | some g =>
      by_cases hg : (g != sid) = true
      · simp [arriveStep, cacheFresh, hg]
      · simp only [Bool.not_eq_true] at hg
        simp [arriveStep, cacheFresh, hg]

/-- While the slot is occupied, any number of further same-session arrivals
only log attachments to the task in the slot. -/
theorem runEvents_arrive_attach (i : Nat) :
    ∀ (times : List Nat) (s : GState),
      s.slot = some i → s.globalSessionId = some s.sessionId →
      runEvents (times.map GEvent.arrive) s =
        { s with log := s.log ++ times.map fun _ => Outcome.attachedTo i } := by
  intro times
  induction times with
  | nil =>
    intro s h1 h2
    simp [runEvents]
  | cons t rest ih =>
    intro s h1 h2
    simp only [List.map_cons, runEvents, List.foldl_cons]
    have hstep : stepG (GEvent.arrive t) s = arriveStep t s := rfl
    rw [hstep, arrive_attach t s i h1 h2]
    have := ih { s with log := s.log ++ [.attachedTo i] } (by simpa using h1) (by simpa using h2)
    rw [show runEvents (rest.map GEvent.arrive) { s with log := s.log ++ [.attachedTo i] } =
      (rest.map GEvent.arrive).foldl (fun t e => stepG e t)
        { s with log := s.log ++ [.attachedTo i] } from rfl] at this
    rw [this]
    simp

/-- The guard either clears the cache timestamp or leaves it unchanged. -/
theorem sessionGuard_lastCheck (s : CState) :
    (sessionGuard s).globalLastCheck = 0 ∨
    (sessionGuard s).globalLastCheck = s.globalLastCheck := by
  cases hg : s.globalSessionId with
  | none => right; simp [sessionGuard, hg]
  | some g =>
    by_cases h : (g != s.sessionId) = true
    · left; simp [sessionGuard, hg, h]
    · right; simp [sessionGuard, hg, h]

theorem cacheFresh_expired (now lc : Nat) (st : Option CredStatus)
    (h : lc + 5 * 60 * 1000 ≤ now) : cacheFresh now lc st = false := by
  have hlt : ¬(now - lc < 5 * 60 * 1000) := by omega
  simp [cacheFresh, hlt]

theorem cacheFresh_zero (now : Nat) (st : Option CredStatus) :
    cacheFresh now 0 st = false := by
  simp [cacheFresh]

/-- The local summary written by `saveCredentials` is always the non-secret
triple of its input, whatever the remote save does. -/
theorem saveCredentials_summary (Osave : Except Unit SaveResp) (now : Nat)
    (c : FullCreds) (s : CState) :
    lsGet (saveCredentials Osave now c s).2.store "odoo_credentials" =
      some (.credJson (some c.url) (some c.database) (some c.username)) := by
  cases Osave with
  | error e =>
    simp only [saveCredentials]
    exact lsGet_lsSet _ _ _
  | ok r =>
    by_cases hsu : r.success = true
    · simp only [saveCredentials, hsu, if_true]
      exact lsGet_lsSet _ _ _
    · simp only [Bool.not_eq_true] at hsu
      simp only [saveCredentials, hsu, Bool.false_eq_true, if_false]
      exact lsGet_lsSet _ _ _

/-- The probe loop issues at most one remote check per candidate. -/
theorem tryCandidates_bound (O : Oracle) (cur : String) :
    ∀ (l : List String) (s : CState),
      (tryCandidates O cur l s).2.probed.length ≤ s.probed.length + l.length := by
  intro l
  induction l with
  | nil => intro s; simp [tryCandidates]
  | cons x rest ih =>
    intro s
    by_cases hx : (x == cur) = true
    · rw [tryCandidates, if_pos hx]
      exact le_trans (ih s) (by simp)
    · cases hr : O s.probed.length x with
      | error e =>
        simp only [tryCandidates, remoteCall, hx, Bool.false_eq_true, if_false, hr]
        exact le_trans (ih { s with probed := s.probed ++ [x] }) (by simp; omega)
      | ok r =>
        by_cases hsu : r.success = true
        · cases hc : r.credentials with
          | some c =>
            simp only [tryCandidates, remoteCall, hx, Bool.false_eq_true, if_false,
              hr, hsu, if_true, hc]
            simp
          | none =>
            simp only [tryCandidates, remoteCall, hx, Bool.false_eq_true, if_false,
              hr, hsu, if_true, hc]
            exact le_trans (ih { s with probed := s.probed ++ [x] }) (by simp; omega)
        · simp only [Bool.not_eq_true] at hsu
          simp only [tryCandidates, remoteCall, hx, Bool.false_eq_true, if_false,
            hr, hsu, Bool.false_eq_true, if_false]
          exact le_trans (ih { s with probed := s.probed ++ [x] }) (by simp; omega)

theorem findAvailableSession_bound (O : Oracle) (cur : String) (s : CState) :
    (findAvailableSession O cur s).2.probed.length ≤ s.probed.length + 3 := by
  cases hr : O s.probed.length cur with
  | error e =>
    simp only [findAvailableSession, remoteCall, hr]
    simp
  | ok r =>
    by_cases hsu : r.success = true
    · cases hc : r.credentials with
      | some c =>
        simp only [findAvailableSession, remoteCall, hr, hsu, if_true, hc]
        simp
      | none =>
        simp only [findAvailableSession, remoteCall, hr, hsu, if_true, hc]
        have := tryCandidates_bound O cur commonSessions { s with probed := s.probed ++ [cur] }
        simp only [commonSessions] at this
        exact le_trans this (by simp)
    · simp only [Bool.not_eq_true] at hsu
      simp only [findAvailableSession, remoteCall, hr, hsu, Bool.false_eq_true, if_false]
      have := tryCandidates_bound O cur commonSessions { s with probed := s.probed ++ [cur] }
      simp only [commonSessions] at this
      exact le_trans this (by simp)

/-- C5: the recovery prober derives its candidates from the literal
`commonSessions` constants, not from a scan of the persistent store: with a
store that carries a prior-session record (`odoo_session_backup`), the probe
checks the current session and the two hardcoded UUIDs, never the stored
identifier.  The per-cycle bound of the claim does hold: at most three
remote checks (current session plus two candidates), which is at most 5. -/
theorem C5_hardcoded_candidates :
    ((findAvailableSession allMissOracle "live-session" c5State).1 = none ∧
     (findAvailableSession allMissOracle "live-session" c5State).2.probed =
       ["live-session", "8428094f-8aeb-4bad-aa6d-6a838a3c9192",
        "fc208a99-36eb-4b0f-9e9a-b49cd882b943"] ∧
     ((findAvailableSession allMissOracle "live-session" c5State).2.probed.contains
       "legacy-session-777") = false ∧
     lsGet c5State.store "odoo_session_backup" = some (.str "legacy-session-777")) ∧
    (∀ (O : Oracle) (cur : String) (s : CState),
      (findAvailableSession O cur s).2.probed.length ≤ s.probed.length + 3) := by
  refine ⟨⟨rfl, rfl, rfl, rfl⟩, ?_⟩
  intro O cur s
  exact findAvailableSession_bound O cur s

/-- C7 counterexample: `recoverSession` is not pure — on finding credentials
under a hardcoded candidate it rotates the session id, writes the local
summary and dispatches two events. -/
theorem C7_probe_mutates_counterexample :
    (recoverSession recoveryHitOracle (freshCState "sess-a")).1 = true ∧
    (freshCState "sess-a").sessionId = "sess-a" ∧
    (recoverSession recoveryHitOracle (freshCState "sess-a")).2.sessionId =
      "8428094f-8aeb-4bad-aa6d-6a838a3c9192" ∧
    (freshCState "sess-a").events = [] ∧
    (recoverSession recoveryHitOracle (freshCState "sess-a")).2.events =
      [.sessionIdChanged "sess-a" "8428094f-8aeb-4bad-aa6d-6a838a3c9192",
       .credentialsUpdated] ∧
    lsGet (recoverSession recoveryHitOracle (freshCState "sess-a")).2.store
      "odoo_credentials" =
      some (.credJson (some "http://erp") (some "db") (some "admin")) :=
  ⟨rfl, rfl, rfl, rfl, rfl, rfl⟩

/-- C7 (amended): `findAvailableSession` mutates nothing — the store, the
session id, the events and the cache globals are untouched — and
`recoverSession` mutates nothing when it reports failure; when it reports
success it performs the rotation, summary write and event dispatch itself
(the coordinator does not). -/
theorem C7_probe_frame :
    ∀ (O : Oracle) (cur : String) (s : CState),
      ((findAvailableSession O cur s).2.store = s.store ∧
       (findAvailableSession O cur s).2.sessionId = s.sessionId ∧
       (findAvailableSession O cur s).2.events = s.events ∧
       (findAvailableSession O cur s).2.globalCredentialStatus = s.globalCredentialStatus ∧
       (findAvailableSession O cur s).2.globalLastCheck = s.globalLastCheck) ∧
      ((recoverSession O s).1 = false →
        (recoverSession O s).2.store = s.store ∧
        (recoverSession O s).2.sessionId = s.sessionId ∧
        (recoverSession O s).2.events = s.events) := by
  intro O cur s
  have hp := probeOnly_findAvailableSession O cur s
  refine ⟨⟨hp.store_eq, hp.sessionId_eq, hp.events_eq,
    hp.globals_eq.2.1, hp.globals_eq.2.2.1⟩, ?_⟩
  intro h
  have hq := recoverSession_false_frame O s h
  exact ⟨hq.store_eq, hq.sessionId_eq, hq.events_eq⟩

/-- C7 witness: a concrete failing recovery leaves the state untouched. -/
theorem C7_probe_frame_witness :
    (findAvailableSession allMissOracle "w7" (freshCState "w7")).2.store =
      (freshCState "w7").store ∧
    (recoverSession allMissOracle (freshCState "w7")).2.events =
      (freshCState "w7").events := by
  have h := C7_probe_frame allMissOracle "w7" (freshCState "w7")
  exact ⟨h.1.1, (h.2 rfl).2.2⟩

/-- C8 counterexample: rotating to the identifier already held still emits
a `sessionIdChanged` event (with `oldId = newId`), so it is not a no-op. -/
theorem C8_same_id_rotation_counterexample :
    (freshCState "sess-x").events = [] ∧
    (updateSessionId "sess-x" (freshCState "sess-x")).sessionId = "sess-x" ∧
    (updateSessionId "sess-x" (freshCState "sess-x")).events =
      [.sessionIdChanged "sess-x" "sess-x"] :=
  ⟨rfl, rfl, rfl⟩

/-- C8 (amended): `updateSessionId` unconditionally persists the identifier,
updates the in-memory identifier and emits `sessionIdChanged {oldId, newId}`
on every call — also when the new identifier equals the one already held, in
which case the identifiers are unchanged in value but the event still
fires. -/
theorem C8_rotation_always_emits :
    ∀ (newId : String) (s : CState),
      (updateSessionId newId s).sessionId = newId ∧
      lsGet (updateSessionId newId s).store "odoo_session_id" = some (.str newId) ∧
      (updateSessionId newId s).events =
        s.events ++ [.sessionIdChanged s.sessionId newId] := by
  intro newId s
  exact ⟨rfl, lsGet_lsSet _ _ _, rfl⟩

/-- C9: the locally persisted credential summary never depends on the
secret: `saveCredentials` always stores exactly the non-secret triple of its
input, so two saves differing only in the secret write identical summaries;
the summary written by a successful recovery likewise has the non-secret
summary shape. -/
theorem C9_secret_noninterference :
    (∀ (Osave : Except Unit SaveResp) (now : Nat) (c : FullCreds) (s : CState),
      lsGet (saveCredentials Osave now c s).2.store "odoo_credentials" =
        some (.credJson (some c.url) (some c.database) (some c.username))) ∧
    (∀ (Osave1 Osave2 : Except Unit SaveResp) (now1 now2 : Nat)
       (c1 c2 : FullCreds) (s1 s2 : CState),
      c1.url = c2.url → c1.database = c2.database → c1.username = c2.username →
      lsGet (saveCredentials Osave1 now1 c1 s1).2.store "odoo_credentials" =
        lsGet (saveCredentials Osave2 now2 c2 s2).2.store "odoo_credentials") ∧
    (∀ (O : Oracle) (s : CState),
      (recoverSession O s).1 = true →
      isSummaryShape
        (lsGet (recoverSession O s).2.store "odoo_credentials") = true) := by
  refine ⟨saveCredentials_summary, ?_, ?_⟩
  · intro Osave1 Osave2 now1 now2 c1 c2 s1 s2 h1 h2 h3
    rw [saveCredentials_summary, saveCredentials_summary, h1, h2, h3]
  · intro O s h
    obtain ⟨c, _, hstore⟩ := recoverSession_true O s h
    rw [hstore]
    rfl

/-- C9 witness: two saves that differ only in the password store the same
summary; a concrete recovery stores a summary-shaped value. -/
theorem C9_secret_noninterference_witness :
    lsGet (saveCredentials (.ok ⟨true, none⟩) 5
        ⟨"http://erp", "db", "admin", "secret-one"⟩ (freshCState "w9")).2.store
      "odoo_credentials" =
    lsGet (saveCredentials (.error ()) 7
        ⟨"http://erp", "db", "admin", "secret-two"⟩ (freshCState "w9b")).2.store
      "odoo_credentials" ∧
    isSummaryShape (lsGet (recoverSession recoveryHitOracle
      (freshCState "w9")).2.store "odoo_credentials") = true := by
  exact ⟨C9_secret_noninterference.2.1 (.ok ⟨true, none⟩) (.error ()) 5 7
      ⟨"http://erp", "db", "admin", "secret-one"⟩
      ⟨"http://erp", "db", "admin", "secret-two"⟩
      (freshCState "w9") (freshCState "w9b") rfl rfl rfl,
    C9_secret_noninterference.2.2 recoveryHitOracle (freshCState "w9") rfl⟩

/-- C10: `clearCredentials` resolves for every behaviour of the remote clear
call (its outcome is ignored), removes the local summary, caches the
not-configured status with a null error and a fresh timestamp, and a second
consecutive clear leaves the same not-configured, error-free state. -/
theorem C10_clear_unconditional :
    ∀ (O1 O2 : Except Unit Bool) (now1 now2 : Nat) (s : CState),
      lsGet (clearCredentials O1 now1 s).store "odoo_credentials" = none ∧
      (clearCredentials O1 now1 s).globalCredentialStatus = some ⟨false, none⟩ ∧
      (clearCredentials O1 now1 s).globalLastCheck = now1 ∧
      (clearCredentials O1 now1 s).globalCredentialCheck = false ∧
      lsGet (clearCredentials O2 now2 (clearCredentials O1 now1 s)).store
        "odoo_credentials" = none ∧
      (clearCredentials O2 now2 (clearCredentials O1 now1 s)).globalCredentialStatus =
        some ⟨false, none⟩ ∧
      (clearCredentials O2 now2 (clearCredentials O1 now1 s)).globalLastCheck = now2 := by
  intro O1 O2 now1 now2 s
  exact ⟨lsGet_lsRemove _ _, rfl, rfl, rfl, lsGet_lsRemove _ _, rfl, rfl⟩

/-- C1: Single-flight.  From a state with a free slot, no in-flight task and
no cached status, any nonempty burst of concurrent `checkCredentials`
arrivals (no network response yet) starts exactly one remote round-trip and
creates exactly one task; every later arrival attaches to that task, and at
no instant of the burst is more than one task in flight. -/
theorem C1_single_flight (t : Nat) (rest : List Nat) (s0 : GState)
    (h1 : s0.slot = none) (h2 : s0.inflight = [])
    (h3 : s0.globalCredentialStatus = none) :
    (runEvents ((t :: rest).map GEvent.arrive) s0).calls = s0.calls + 1 ∧
    (runEvents ((t :: rest).map GEvent.arrive) s0).inflight.length = 1 ∧
    (runEvents ((t :: rest).map GEvent.arrive) s0).log =
      s0.log ++ Outcome.created s0.nextId ::
        (rest.map fun _ => Outcome.attachedTo s0.nextId) ∧
    (∀ k, (runEvents (((t :: rest).take k).map GEvent.arrive) s0).inflight.length ≤ 1) := by
  obtain ⟨hslot, hinf, hcalls, hnid, hlog, hgsid, hsid⟩ := arrive_create_facts t s0 h1 h3
  have key : ∀ l : List Nat,
      runEvents ((t :: l).map GEvent.arrive) s0 =
        { arriveStep t s0 with log := ((arriveStep t s0).log ++
            l.map (fun _ => Outcome.attachedTo s0.nextId)) } := by
    intro l
    simp only [List.map_cons, runEvents, List.foldl_cons]
    have hstep : stepG (GEvent.arrive t) s0 = arriveStep t s0 := rfl
    rw [hstep]
    exact runEvents_arrive_attach s0.nextId l (arriveStep t s0) hslot hgsid
  refine ⟨?_, ?_, ?_, ?_⟩
  · rw [key rest]
    show (arriveStep t s0).calls = s0.calls + 1
    exact hcalls
  · rw [key rest]
    show (arriveStep t s0).inflight.length = 1
    rw [hinf, h2]
    rfl
  · rw [key rest]
    show (arriveStep t s0).log ++ _ = _
    rw [hlog]
    simp
  · intro k
    cases k with
    | zero =>
      show (runEvents [] s0).inflight.length ≤ 1
      show s0.inflight.length ≤ 1
      rw [h2]
      exact Nat.zero_le 1
    | succ k' =>
      rw [show (t :: rest).take (k' + 1) = t :: rest.take k' from rfl]
      rw [key (rest.take k')]
      show (arriveStep t s0).inflight.length ≤ 1
      rw [hinf, h2]
      exact le_refl 1

/-- C1 witness: four concurrent arrivals from a fresh boot issue exactly one
round-trip and keep a single in-flight task. -/
theorem C1_single_flight_witness :
    (runEvents ([50, 60, 70, 80].map GEvent.arrive) (freshGState "sess-one")).calls = 1 ∧
    (runEvents ([50, 60, 70, 80].map GEvent.arrive)
      (freshGState "sess-one")).inflight.length = 1 ∧
    (runEvents ([50, 60, 70, 80].map GEvent.arrive) (freshGState "sess-one")).log =
      [.created 0, .attachedTo 0, .attachedTo 0, .attachedTo 0] := by
  have h := C1_single_flight 50 [60, 70, 80] (freshGState "sess-one") rfl rfl rfl
  exact ⟨h.1, h.2.1, h.2.2.1⟩

/-- C2 counterexample: with a mid-flight rotation, fetch A (started at 1000
for the old session) completes after fetch B (started at 2000 for the new
session) and its write overwrites B's newer cache entry; the cache
timestamp drops from 2000 back to 1000, so it is not monotone and the
completion write is not a compare-and-set. -/
theorem C2_stale_overwrite_counterexample :
    (runEvents ((staleTrace 1000 2000 "session-two" ⟨true, none⟩
        ⟨false, some "Session expired - please re-enter credentials"⟩).take 4)
      (freshGState "session-one")).globalLastCheck = 2000 ∧
    (runEvents ((staleTrace 1000 2000 "session-two" ⟨true, none⟩
        ⟨false, some "Session expired - please re-enter credentials"⟩).take 4)
      (freshGState "session-one")).globalCredentialStatus = some ⟨true, none⟩ ∧
    (runEvents (staleTrace 1000 2000 "session-two" ⟨true, none⟩
        ⟨false, some "Session expired - please re-enter credentials"⟩)
      (freshGState "session-one")).globalLastCheck = 1000 ∧
    (runEvents (staleTrace 1000 2000 "session-two" ⟨true, none⟩
        ⟨false, some "Session expired - please re-enter credentials"⟩)
      (freshGState "session-one")).globalCredentialStatus =
      some ⟨false, some "Session expired - please re-enter credentials"⟩ :=
  ⟨rfl, rfl, rfl, rfl⟩

/-- C2 (amended): the completion write is a blind overwrite, not a
compare-and-set: for any `t1 < t2`, in the trace where fetch A starts at
`t1`, the session rotates, fetch B starts at `t2` and completes first, and
A completes last, A's result does overwrite B's cache entry and the cache
timestamp decreases from `t2` to `t1`. -/
theorem C2_blind_overwrite (t1 t2 : Nat) (sid1 sid2 : String)
    (stA stB : CredStatus)
    (_hne : sid1 ≠ sid2) (hlt : t1 < t2) :
    (runEvents ((staleTrace t1 t2 sid2 stB stA).take 4)
      (freshGState sid1)).globalLastCheck = t2 ∧
    (runEvents ((staleTrace t1 t2 sid2 stB stA).take 4)
      (freshGState sid1)).globalCredentialStatus = some stB ∧
    (runEvents (staleTrace t1 t2 sid2 stB stA)
      (freshGState sid1)).globalLastCheck = t1 ∧
    (runEvents (staleTrace t1 t2 sid2 stB stA)
      (freshGState sid1)).globalCredentialStatus = some stA ∧
    (runEvents (staleTrace t1 t2 sid2 stB stA) (freshGState sid1)).globalLastCheck <
      (runEvents ((staleTrace t1 t2 sid2 stB stA).take 4)
        (freshGState sid1)).globalLastCheck := by
  refine ⟨?_, ?_, ?_, ?_, ?_⟩ <;>
    simp [staleTrace, runEvents, freshGState, stepG, arriveStep, rotateStep,
      completeStep, cacheFresh, List.find?, List.filter, hlt]


/-- C2 witness: the blind overwrite at concrete times 3 and 9. -/
theorem C2_blind_overwrite_witness :
    (runEvents ((staleTrace 3 9 "sess-b" ⟨true, none⟩ ⟨false, none⟩).take 4)
      (freshGState "sess-a")).globalLastCheck = 9 ∧
    (runEvents (staleTrace 3 9 "sess-b" ⟨true, none⟩ ⟨false, none⟩)
      (freshGState "sess-a")).globalLastCheck = 3 ∧
    (runEvents (staleTrace 3 9 "sess-b" ⟨true, none⟩ ⟨false, none⟩)
      (freshGState "sess-a")).globalCredentialStatus = some ⟨false, none⟩ := by
  have h := C2_blind_overwrite 3 9 "sess-a" "sess-b" ⟨false, none⟩ ⟨true, none⟩
    (by decide) (by decide)
  exact ⟨h.1, h.2.2.1, h.2.2.2.1⟩

/-- With a remote service on which every call is rejected, the direct
backend check lands in the task's outer catch. -/
theorem afterLocal_allError (O : Oracle) (k : CState → CCResult × CState)
    (now : Nat) (s : CState) (hO : ∀ i sid, O i sid = .error ()) :
    (afterLocal O k now s).1 = .value false ∧
    (afterLocal O k now s).2.globalCredentialStatus =
      some ⟨false, some "Failed to check credentials"⟩ := by
  constructor
  · simp only [afterLocal, remoteCall, hO]
  · simp only [afterLocal, remoteCall, hO]

theorem taskBody_allError (O : Oracle) (k : CState → CCResult × CState)
    (now : Nat) (s : CState) (hO : ∀ i sid, O i sid = .error ()) :
    (taskBody O k now s).1 = .value false ∧
    (taskBody O k now s).2.globalCredentialStatus =
      some ⟨false, some "Failed to check credentials"⟩ := by
  cases hv : lsGet s.store "odoo_credentials" with
  | none => simp only [taskBody, hv]; exact afterLocal_allError O k now s hO
  | some v =>
    cases hp : parseCredJson v with
    | none =>
      simp only [taskBody, hv, hp]
      exact afterLocal_allError O k now
        { s with store := lsRemove s.store "odoo_credentials" } hO
    | some trip =>
      cases trip with
      | mk u rest2 =>
        cases rest2 with
        | mk d n =>
          by_cases ht : (truthy u && truthy d && truthy n) = true
          · simp only [taskBody, hv, hp, ht, if_true, remoteCall, hO]
            exact afterLocal_allError O k now
              { s with store := lsRemove s.store "odoo_credentials",
                       probed := s.probed ++ [s.sessionId] } hO
          · simp only [Bool.not_eq_true] at ht
            simp only [taskBody, hv, hp, ht, Bool.false_eq_true, if_false]
            exact afterLocal_allError O k now
              { s with store := lsRemove s.store "odoo_credentials" } hO

/-- C3: TTL correctness.  Without `skipCache`, a cache entry younger than
five minutes computed for the session currently held is served back with no
remote call and no store change; a check with `skipCache`, or after the
five-minute TTL has elapsed, or whose cache belongs to a different session
id, starts a fetch (at least one new remote round-trip). -/
theorem C3_ttl_correctness :
    (∀ (O : Oracle) (tm : Nat → Nat) (fuel : Nat) (s : CState) (st : CredStatus),
      s.globalCredentialCheck = false →
      s.globalSessionId = some s.sessionId →
      s.globalCredentialStatus = some st →
      s.globalLastCheck ≠ 0 →
      tm s.retries - s.globalLastCheck < 5 * 60 * 1000 →
      (checkCredentialsGo O tm (fuel + 1) false s).1 = .value st.isConfigured ∧
      (checkCredentialsGo O tm (fuel + 1) false s).2.probed = s.probed ∧
      (checkCredentialsGo O tm (fuel + 1) false s).2.store = s.store) ∧
    (∀ (O : Oracle) (tm : Nat → Nat) (fuel : Nat) (skipCache : Bool) (s : CState),
      s.globalCredentialCheck = false →
      (skipCache = true ∨ s.globalLastCheck + 5 * 60 * 1000 ≤ tm s.retries ∨
        (∃ g, s.globalSessionId = some g ∧ (g != s.sessionId) = true)) →
      s.probed.length < (checkCredentialsGo O tm (fuel + 1) skipCache s).2.probed.length) := by
  constructor
  · intro O tm fuel s st h1 h2 h3 h4 h5
    have hu : sessionGuard s = s := sessionGuard_same s h2
    have hcf : cacheFresh (tm s.retries) s.globalLastCheck s.globalCredentialStatus = true := by
      simp [cacheFresh, h3, h4, h5]
    refine ⟨?_, ?_, ?_⟩
    · rw [checkCredentialsGo_hit O tm fuel s s hu h1 hcf, h3]
      rfl
    · rw [checkCredentialsGo_hit O tm fuel s s hu h1 hcf]
    · rw [checkCredentialsGo_hit O tm fuel s s hu h1 hcf]
  · intro O tm fuel skipCache s h1 hdisj
    have hcg := sessionGuard_check_false s h1
    have hm' : (!skipCache && cacheFresh (tm s.retries)
        (sessionGuard s).globalLastCheck (sessionGuard s).globalCredentialStatus) = false := by
      rcases hdisj with hskip | hexp | ⟨g, hg, hgne⟩
      · subst hskip; simp
      · rcases sessionGuard_lastCheck s with hz | heq
        · rw [hz, cacheFresh_zero]; simp
        · rw [heq, cacheFresh_expired (tm s.retries) s.globalLastCheck
            (sessionGuard s).globalCredentialStatus hexp]
          simp
      · rw [sessionGuard_diff s g hg hgne]
        simp [cacheFresh]
    rw [checkCredentialsGo_miss O tm fuel skipCache s (sessionGuard s) rfl hcg hm']
    have hpr := (sessionGuard_frame s).2.2.2.1
    have hk : ∀ t : CState, t.probed.length ≤
        (checkCredentialsGo O tm fuel true t).2.probed.length :=
      fun t => probed_le_checkCredentialsGo O tm fuel true t
    have hbody := probed_succ_taskBody O (checkCredentialsGo O tm fuel true) (tm s.retries)
      { sessionGuard s with
        globalSessionId := some (sessionGuard s).sessionId,
        globalCredentialCheck := true } hk
    rw [show ({ sessionGuard s with
        globalSessionId := some (sessionGuard s).sessionId,
        globalCredentialCheck := true } : CState).probed = s.probed from hpr] at hbody
    exact lt_of_lt_of_le (Nat.lt_succ_self _) hbody

/-- C3 witness: a 10-millisecond-old same-session entry is served with no
network call; a skip-cache check on a fresh state starts a round-trip. -/
theorem C3_ttl_correctness_witness :
    ((checkCredentialsGo allMissOracle (fun _ => 20) 3 false
        { freshCState "w3" with
          globalSessionId := some "w3",
          globalCredentialStatus := some ⟨true, none⟩,
          globalLastCheck := 10 }).1 = .value true ∧
     (checkCredentialsGo allMissOracle (fun _ => 20) 3 false
        { freshCState "w3" with
          globalSessionId := some "w3",
          globalCredentialStatus := some ⟨true, none⟩,
          globalLastCheck := 10 }).2.probed = [] ∧
     (checkCredentialsGo allMissOracle (fun _ => 20) 3 false
        { freshCState "w3" with
          globalSessionId := some "w3",
          globalCredentialStatus := some ⟨true, none⟩,
          globalLastCheck := 10 }).2.store = []) ∧
    0 < (checkCredentialsGo allMissOracle (fun _ => 20) 3 true
        (freshCState "w3")).2.probed.length := by
  constructor
  · exact C3_ttl_correctness.1 allMissOracle (fun _ => 20) 2
      { freshCState "w3" with
        globalSessionId := some "w3",
        globalCredentialStatus := some ⟨true, none⟩,
        globalLastCheck := 10 }
      ⟨true, none⟩ rfl rfl rfl (by decide) (by decide)
  · exact C3_ttl_correctness.2 allMissOracle (fun _ => 20) 2 true
      (freshCState "w3") rfl (Or.inl rfl)

/-- C4: the promise returned by `checkCredentials` never rejects — every
path of the task body is inside its try/catch — and when every remote call
fails (total network failure) the check resolves `false` with the failure
reason recorded in the cache entry. -/
theorem C4_never_rejects :
    (∀ (O : Oracle) (tm : Nat → Nat) (fuel : Nat) (skipCache : Bool) (s : CState),
      isRejection (checkCredentialsGo O tm fuel skipCache s).1 = false) ∧
    (∀ (O : Oracle) (tm : Nat → Nat) (fuel : Nat) (s : CState),
      (∀ i sid, O i sid = .error ()) →
      s.globalCredentialCheck = false →
      (checkCredentialsGo O tm (fuel + 1) true s).1 = .value false ∧
      (checkCredentialsGo O tm (fuel + 1) true s).2.globalCredentialStatus =
        some ⟨false, some "Failed to check credentials"⟩) := by
  constructor
  · exact noThrow_checkCredentialsGo
  · intro O tm fuel s hO h1
    have hcg := sessionGuard_check_false s h1
    rw [checkCredentialsGo_miss O tm fuel true s (sessionGuard s) rfl hcg (by simp)]
    have h := taskBody_allError O (checkCredentialsGo O tm fuel true) (tm s.retries)
      { sessionGuard s with
        globalSessionId := some (sessionGuard s).sessionId,
        globalCredentialCheck := true } hO
    exact ⟨h.1, h.2⟩

/-- C4 witness: with a remote service whose every call is rejected, a
concrete check resolves `false` and records the failure reason. -/
theorem C4_never_rejects_witness :
    isRejection (checkCredentialsGo allErrorOracle (fun _ => 0) 3 false
      (freshCState "w4")).1 = false ∧
    (checkCredentialsGo allErrorOracle (fun _ => 0) 2 true (freshCState "w4")).1 =
      .value false ∧
    (checkCredentialsGo allErrorOracle (fun _ => 0) 2 true
      (freshCState "w4")).2.globalCredentialStatus =
      some ⟨false, some "Failed to check credentials"⟩ := by
  have h2 := C4_never_rejects.2 allErrorOracle (fun _ => 0) 1 (freshCState "w4")
    (fun i sid => rfl) rfl
  exact ⟨C4_never_rejects.1 allErrorOracle (fun _ => 0) 3 false (freshCState "w4"),
    h2.1, h2.2⟩

/-- C6 counterexample: the recursion is not capped at one retry.  Under a
remote service whose answers change between probe and re-check, a single
`checkCredentials(false)` call performs two recovery retries (recursion
depth 2) before resolving. -/
theorem C6_retry_depth_counterexample :
    (checkCredentialsGo flipOracle (fun _ => 0) 9 false
      (freshCState "sess-zero")).2.retries = 2 ∧
    (checkCredentialsGo flipOracle (fun _ => 0) 9 false
      (freshCState "sess-zero")).1 = .value true :=
  ⟨rfl, rfl⟩

/-- C6 (amended): the retry recursion carries no syntactic depth cap, but
when the remote service's answers are stable within the cycle, every check
with no in-flight task resolves within the model's fuel and performs at
most one retry. -/
theorem C6_bounded_retry_stable :
    ∀ (O : Oracle) (tm : Nat → Nat) (fuel : Nat) (skipCache : Bool) (s : CState),
      (∀ i j sid, O i sid = O j sid) →
      s.globalCredentialCheck = false →
      (∃ b, (checkCredentialsGo O tm (fuel + 2) skipCache s).1 = .value b) ∧
      (checkCredentialsGo O tm (fuel + 2) skipCache s).2.retries ≤ s.retries + 1 := by
  intro O tm fuel skipCache s hst h1
  have hcg := sessionGuard_check_false s h1
  have hrt := (sessionGuard_frame s).2.2.2.2
  by_cases hm : (!skipCache && cacheFresh (tm s.retries)
      (sessionGuard s).globalLastCheck (sessionGuard s).globalCredentialStatus) = true
  · have hsk : skipCache = false := by
      revert hm; cases skipCache <;> simp
    subst hsk
    have hcf : cacheFresh (tm s.retries) (sessionGuard s).globalLastCheck
        (sessionGuard s).globalCredentialStatus = true := by simpa using hm
    rw [show (fuel + 2) = (fuel + 1) + 1 from rfl,
      checkCredentialsGo_hit O tm (fuel + 1) s (sessionGuard s) rfl hcg hcf]
    refine ⟨⟨_, rfl⟩, ?_⟩
    show (sessionGuard s).retries ≤ s.retries + 1
    rw [hrt]
    exact Nat.le_succ _
  · have hm' : (!skipCache && cacheFresh (tm s.retries)
        (sessionGuard s).globalLastCheck (sessionGuard s).globalCredentialStatus) = false := by
      revert hm
      cases (!skipCache && cacheFresh (tm s.retries) (sessionGuard s).globalLastCheck
        (sessionGuard s).globalCredentialStatus) <;> simp
    rw [show (fuel + 2) = (fuel + 1) + 1 from rfl,
      checkCredentialsGo_miss O tm (fuel + 1) skipCache s (sessionGuard s) rfl hcg hm']
    have hk : ∀ (t : CState) (c : Creds),
        (∀ i, O i t.sessionId = .ok ⟨true, some c⟩) →
        t.globalCredentialCheck = false →
        (checkCredentialsGo O tm (fuel + 1) true t).1 = .value true ∧
        (checkCredentialsGo O tm (fuel + 1) true t).2.retries = t.retries :=
      fun t c hO hc => checkCredentialsGo_confirm O tm fuel t c hO hc
    have h := taskBody_stable O (checkCredentialsGo O tm (fuel + 1) true) (tm s.retries)
      { sessionGuard s with
        globalSessionId := some (sessionGuard s).sessionId,
        globalCredentialCheck := true } hst hk
    refine ⟨h.1, ?_⟩
    have h2 := h.2
    rw [show ({ sessionGuard s with
        globalSessionId := some (sessionGuard s).sessionId,
        globalCredentialCheck := true } : CState).retries = s.retries from hrt] at h2
    exact h2

/-- C6 witness: a stable remote with no credentials anywhere resolves with
no retry. -/
theorem C6_bounded_retry_stable_witness :
    (∃ b, (checkCredentialsGo allMissOracle (fun _ => 0) 2 false
      (freshCState "w6")).1 = .value b) ∧
    (checkCredentialsGo allMissOracle (fun _ => 0) 2 false
      (freshCState "w6")).2.retries ≤ 1 := by
  exact C6_bounded_retry_stable allMissOracle (fun _ => 0) 0 false
    (freshCState "w6") (fun i j sid => rfl) rfl
